import Mathlib

/-!
# Verification of the mastermind engine (prof-tallman/mastermind)

Shallow embedding of `engine.py` and `sandbox.py` together with proofs of
the specification claims.  Pure functions (`validate_code`, `score_feedback`)
become Lean functions; the stateful parts (the `BotProcess` supervisor handle
and the worker request loop) become explicit state-passing functions; the
game loop `Game.run_game_loop` is a recursive function over the bot's
responses, with escaping Python exceptions modelled by a dedicated
constructor of the result type.
-/

namespace Mastermind

/-! ## Scorer (`engine.score_feedback`) -/

/-- The feedback record `{black, white, guess}` built by `score_feedback`. -/
structure Feedback (α : Type) where
  black : Nat
  white : Nat
  guess : List α
deriving DecidableEq, Repr

variable {α : Type} [DecidableEq α]

/-- Source: `black = sum(s == g for s, g in zip(code, guess))`. -/
def score_black (code guess : List α) : Nat :=
  ((code.zip guess).filter fun p => decide (p.1 = p.2)).length

/-- The zipped pairs with the position matches filtered out, i.e. the pairs
`(s, g)` with `s != g` that both counters of `score_feedback` range over. -/
def unmatchedPairs (code guess : List α) : List (α × α) :=
  (code.zip guess).filter fun p => !decide (p.1 = p.2)

/-- Source: `Counter(s for s, g in zip(code, guess) if s != g)`, as a multiset. -/
def secretCounter (code guess : List α) : Multiset α :=
  ((unmatchedPairs code guess).map Prod.fst : List α)

/-- Source: `Counter(g for s, g in zip(code, guess) if s != g)`, as a multiset. -/
def guessCounter (code guess : List α) : Multiset α :=
  ((unmatchedPairs code guess).map Prod.snd : List α)

/-- Source: `white = sum((secret_counter & guess_counter).values())`: the size of the
multiset intersection (`Counter.__and__` takes the minimum of the counts). -/
def score_white (code guess : List α) : Nat :=
  Multiset.card (secretCounter code guess ∩ guessCounter code guess)

/-- Embeds `engine.score_feedback`: returns `{black, white, guess}`. -/
def score_feedback (code guess : List α) : Feedback α :=
  { black := score_black code guess
    white := score_white code guess
    guess := guess }

/-! ### Spec-side restatement of the scorer (for the refinement claim C1)

These definitions follow the words of the specification: `black` is the
number of positions `i` with `S[i] == G[i]`, and `white` is the size of the
multiset intersection of the secret tokens and the guess tokens taken at the
non-matching positions. -/

/-- Spec-worded: the number of positions `i` with `S[i] == G[i]`. -/
def specBlack (S G : List α) : Nat :=
  ((List.range S.length).filter fun i => decide (S.get? i = G.get? i)).length

/-- Spec-worded: the list of non-matching positions. -/
def specNonMatching (S G : List α) : List Nat :=
  (List.range S.length).filter fun i => !decide (S.get? i = G.get? i)

/-- Spec-worded: the multiset of secret tokens at the non-matching positions. -/
def specSecretMS (S G : List α) : Multiset α :=
  ((specNonMatching S G).filterMap (fun i => S.get? i) : List α)

/-- Spec-worded: the multiset of guess tokens at the non-matching positions. -/
def specGuessMS (S G : List α) : Multiset α :=
  ((specNonMatching S G).filterMap (fun i => G.get? i) : List α)

/-- Spec-worded `white`: each token counted up to the minimum of its
occurrences on each side. -/
def specWhite (S G : List α) : Nat :=
  Multiset.card (specSecretMS S G ∩ specGuessMS S G)

/-! ## Validator (`engine.validate_code`)

The source reads `code_length` and `code_colors` out of the settings
dictionary; those two values are the parameters here.  `set(colors)` only
deduplicates, so membership in the set is membership in the list. -/

/-- Embeds `engine.validate_code`: returns `(is_valid, message)`. -/
def validate_code (code : List α) (code_length : Nat) (colors : List α) :
    Bool × String :=
  if code.length ≠ code_length then
    (false, "wrong length")
  else if code.any fun c => !decide (c ∈ colors) then
    (false, "invalid color symbol")
  else
    (true, "valid code")

/-! ## The settings dictionary (`dict[str, object]`)

`Game.__init__` validates (and possibly writes to) the caller's settings
dictionary, so for the frame claim the dictionary itself is modelled: an
insertion-ordered association list, with Python's assignment semantics
(update in place if the key exists, append otherwise). -/

/-- A Python value, as far as the settings dictionary needs. -/
inductive PyVal where
  | int (n : Int)
  | str (s : String)
  | strList (l : List String)
  | pyNone
deriving DecidableEq, Repr

/-- An insertion-ordered string-keyed dictionary. -/
def Dict : Type := List (String × PyVal)

instance : DecidableEq Dict := by unfold Dict; infer_instance

/-- Lookup `d[k]` (first binding wins; a `Dict` built by `Dict.set` never
has duplicate keys). -/
def Dict.get? (d : Dict) (k : String) : Option PyVal :=
  match d with
  | [] => Option.none
  | (k', v) :: rest => if k' = k then some v else Dict.get? rest k

/-- Membership test `k in d`. -/
def Dict.contains (d : Dict) (k : String) : Bool :=
  (d.get? k).isSome

/-- Assignment `d[k] = v`: update the existing binding in place, else append. -/
def Dict.set (d : Dict) (k : String) (v : PyVal) : Dict :=
  match d with
  | [] => [(k, v)]
  | (k', v') :: rest =>
    if k' = k then (k, v) :: rest else (k', v') :: Dict.set rest k v

/-! ## `engine.py` constants -/

def DEFAULT_SEED : Int := 104
def CODE_COLORS : String := "code_colors"
def CODE_LENGTH : String := "code_length"
def GAME_SEED : String := "game_seed"
def MAX_TURNS : String := "max_turns"

/-- Embeds `Game.__init__`: check the required keys in order (raising `ValueError`
on the first missing one), then default an absent `game_seed` by writing it
into the caller's dictionary.  The returned dictionary is the state of the
caller's `settings` object after construction. -/
def Game.init (settings : Dict) : Except String Dict :=
  if settings.contains CODE_COLORS = false then
    .error "Settings must specify code_colors"
  else if settings.contains CODE_LENGTH = false then
    .error "Settings must specify code_length"
  else if settings.contains MAX_TURNS = false then
    .error "Settings must specify max_turns"
  else if settings.contains GAME_SEED = false then
    .ok (settings.set GAME_SEED (.int DEFAULT_SEED))
  else
    .ok settings

/-! ## Game engine (`Game.run_game_loop`)

The loop interacts with the bot only through `BotProcess.call`, which
either returns a value, raises `BotError`, or raises `BotTimeout`.  The
bot (together with its worker process) is therefore modelled as an oracle
giving the outcome of each call, and the outcome of `BotProcess.start`
is a separate parameter.  The secret, produced by `self._rand_code()`
from the seeded Mersenne twister, is likewise a parameter: the claims do
not depend on which code the generator draws. -/

/-- Outcome of one `BotProcess.call` as seen by the engine. -/
inductive CallOut (β : Type) where
  | ok (v : β)
  | error (msg : String)
  | timeout
deriving DecidableEq, Repr

/-- The bot's identification record. -/
structure BotInfo where
  name : String
  author : String
deriving DecidableEq, Repr

/-- Oracle for the three calls the engine issues: `bot_info` once, then
`make_guess` and `receive_feedback` per turn (indexed by turn number). -/
structure BotBehavior where
  info : CallOut BotInfo
  guess : Nat → CallOut (List String)
  feedback : Nat → CallOut Unit

/-- Outcome of `BotProcess.start` as seen by the engine. -/
inductive StartOut where
  | ready
  | timeout
  | error (msg : String)
deriving DecidableEq, Repr

/-- The result dictionary built by `make_result`. -/
structure MatchResult where
  turns : Int
  result : String
  reason : String
  secret : List String
  history : List (Feedback String)
  botinfo : BotInfo
deriving DecidableEq, Repr

/-- The default value of `make_result`'s `bot_info` parameter. -/
def default_bot_info : BotInfo := { name := "unknown", author := "unknown" }

/-- Helper `make_result` from `Game.run_game_loop`. -/
def make_result (secret : List String) (history : List (Feedback String))
    (turns : Int) (result reason : String) (bot_info : BotInfo) :
    MatchResult :=
  { turns := turns, result := result, reason := reason,
    secret := secret, history := history, botinfo := bot_info }

/-- The settings values the loop reads out of the dictionary. -/
structure SettingsV where
  code_colors : List String
  code_length : Nat
  max_turns : Nat

/-- The body of `for turn in range(1, max_turns + 1)`, carrying the turn
counter and the number of remaining iterations. -/
def playTurns (s : SettingsV) (secret : List String) (bot : BotBehavior)
    (bot_info : BotInfo) (history : List (Feedback String))
    (turn : Nat) : Nat → MatchResult
  | 0 =>
    make_result secret history (Int.ofNat s.max_turns)
      "loss" "exhausted turns" bot_info
  | remaining + 1 =>
    match bot.guess turn with
    | .error e =>
      make_result secret history (Int.ofNat turn) "loss"
        ("exception: " ++ e) bot_info
    | .timeout =>
      make_result secret history (Int.ofNat turn) "loss" "timeout" bot_info
    | .ok g =>
      if (validate_code g s.code_length s.code_colors).1 = false then
        make_result secret history (Int.ofNat turn) "loss"
          "invalid code" default_bot_info
      else
        let feedback := score_feedback secret g
        let history2 := history ++ [feedback]
        match bot.feedback turn with
        | .error e =>
          make_result secret history2 (Int.ofNat turn) "loss"
            ("exception: " ++ e) bot_info
        | .timeout =>
          make_result secret history2 (Int.ofNat turn) "loss"
            "timeout" bot_info
        | .ok _ =>
          if feedback.black = s.code_length then
            make_result secret history2 (Int.ofNat turn) "win"
              "guessed code" bot_info
          else
            playTurns s secret bot bot_info history2 (turn + 1) remaining

/-- The outcome of `Game.run_game_loop`: either a returned result
dictionary, or an exception that escaped to the caller. -/
inductive RunOut where
  | ret (r : MatchResult)
  | raisedTimeout (msg : String)
  | raisedError (msg : String)
deriving DecidableEq, Repr

/-- Embeds `Game.run_game_loop`.  `settingsD` is `self.settings`, threaded through
unchanged (the loop only reads it); the pair component of the result is its
state when the call ends.  `BotProcess.start` has no enclosing `except`
clause in the source, so a startup fault is returned as a raised
exception, not as a result dictionary. -/
def runGameLoop (settingsD : Dict) (s : SettingsV) (module : String)
    (secret : List String) (start : StartOut) (bot : BotBehavior) :
    RunOut × Dict :=
  match start with
  | .timeout =>
    (.raisedTimeout ("Bot " ++ module ++ " failed to start in time"),
     settingsD)
  | .error e =>
    (.raisedError ("Bot " ++ module ++ " failed to start: " ++ e),
     settingsD)
  | .ready =>
    match bot.info with
    | .error e =>
      (.ret (make_result secret [] (-1) "loss" ("exception: " ++ e)
        default_bot_info), settingsD)
    | .timeout =>
      (.ret (make_result secret [] (-1) "loss" "timeout"
        default_bot_info), settingsD)
    | .ok bot_info =>
      (.ret (playTurns s secret bot bot_info [] 1 s.max_turns), settingsD)

/-! ## Supervisor handle (`sandbox.BotProcess`)

The handle's observable state is `self.alive`, whether `self._parent_pipe`
is set, and whether the worker process is still running.  `call` is a
state transformer whose environment input is what `poll`/`recv` observe on
the pipe: either no message within the timeout, or a response message. -/

/-- A response message `{ok: bool, result?/error?}` from the worker. -/
inductive RespMsg where
  | ok (v : PyVal)
  | err (e : String)
deriving DecidableEq, Repr

/-- What `poll(timeout)` followed by `recv()` observes. -/
inductive PollResult where
  | timeout
  | msg (m : RespMsg)
deriving DecidableEq, Repr

/-- What `call` produces: a returned value or a raised exception. -/
inductive CallResult where
  | ret (v : PyVal)
  | raiseError (msg : String)
  | raiseTimeout (msg : String)
deriving DecidableEq, Repr

/-- Observable state of a `BotProcess` handle. -/
structure BPState where
  alive : Bool
  pipe : Bool
  procAlive : Bool
deriving DecidableEq, Repr

/-- The handle state right after `BotProcess.__init__`: `alive = False`,
`_parent_pipe = None`, `_bot_process = None`. -/
def BotProcess.initState : BPState :=
  { alive := false, pipe := false, procAlive := false }

/-- Embeds `BotProcess._kill`: terminate the worker process if it is running, then
clear `_bot_process`, `_parent_pipe` and `alive`. -/
def BotProcess.kill (_st : BPState) : BPState :=
  { alive := false, pipe := false, procAlive := false }

/-- Embeds `BotProcess.call`: the triple is (call outcome, handle state after the
call, whether a request was sent to the worker). -/
def BotProcess.call (module method : String) (st : BPState)
    (env : PollResult) : CallResult × BPState × Bool :=
  if st.alive = false ∨ st.pipe = false then
    (.raiseError "Bot process not started", st, false)
  else
    match env with
    | .timeout =>
      (.raiseTimeout
        ("Bot " ++ module ++ " timed out calling " ++ method ++ "()"),
       BotProcess.kill st, true)
    | .msg (.err e) =>
      (.raiseError
        ("Bot " ++ module ++ " error in " ++ method ++ "(): " ++ e),
       st, true)
    | .msg (.ok v) => (.ret v, st, true)

/-- Embeds `BotProcess.stop`: a no-op unless alive with a pipe; otherwise it asks
the worker to stop and unconditionally `_kill`s in the `finally` block. -/
def BotProcess.stop (st : BPState) : BPState :=
  if st.alive = false ∨ st.pipe = false then st else BotProcess.kill st

/-! ## Worker request loop (`sandbox._bot_worker_main`)

The serving loop (after the startup phase has reported readiness) is
modelled over the sequence of events it observes: each received message
together with, for a `call` request, how the agent's method resolves and
behaves when invoked.  The loop body catches every exception raised by the
invoked method, so the model of one iteration is total: it either sends a
response and continues, or exits the loop. -/

/-- One event observed by the worker loop: what `conn.recv()` yields and,
for a `call`, the result of the `getattr` lookup (`none` = AttributeError)
and of the invocation (`Except.error` = the method raised; the string is
the formatted traceback). -/
inductive WEvent where
  | recvFail
  | notDict
  | stopMsg
  | callMsg (method : String) (lookup : Option (Except String PyVal))
  | badOp (op : String)

/-- The worker serving loop: the list of responses it sends for a given
event sequence.  An exhausted event list stands for the channel closing
(`EOFError`), which ends the loop silently. -/
def workerLoop : List WEvent → List RespMsg
  | [] => []
  | ev :: rest =>
    match ev with
    | .recvFail => []
    | .notDict => .err "Protocol error: expected dict" :: workerLoop rest
    | .stopMsg => []
    | .callMsg m Option.none =>
      .err ("No such method: " ++ m) :: workerLoop rest
    | .callMsg _ (some (.error tb)) => .err tb :: workerLoop rest
    | .callMsg _ (some (.ok v)) => .ok v :: workerLoop rest
    | .badOp op => .err ("Unknown call: " ++ op) :: workerLoop rest

/-! ## Theorems

First the scorer lemmas, relating the zip-based implementation to the
position-indexed reading of the specification. -/

theorem score_black_eq_spec (S G : List α) (h : S.length = G.length) :
    score_black S G = specBlack S G := by
  induction S generalizing G with
  | nil =>
    cases G with
    | nil => rfl
    | cons g G => simp at h
  | cons s S ih =>
    cases G with
    | nil => simp at h
    | cons g G =>
      have h2 : S.length = G.length := by simpa using h
      unfold score_black specBlack at ih ⊢
      simp only [List.zip_cons_cons, List.filter_cons, List.length_cons,
        List.range_succ_eq_map, List.get?_cons_zero, List.get?_cons_succ,
        List.filter_map, List.length_map, Function.comp]
      by_cases hsg : s = g
      · simp [hsg, Function.comp_def, Nat.succ_eq_add_one, ih G h2]
      · simp [hsg, Function.comp_def, Nat.succ_eq_add_one, ih G h2]

theorem unmatched_fst_eq (S G : List α) (h : S.length = G.length) :
    (unmatchedPairs S G).map Prod.fst
      = (specNonMatching S G).filterMap fun i => S.get? i := by
  induction S generalizing G with
  | nil =>
    cases G with
    | nil => rfl
    | cons g G => simp at h
  | cons s S ih =>
    cases G with
    | nil => simp at h
    | cons g G =>
      have h2 : S.length = G.length := by simpa using h
      unfold unmatchedPairs specNonMatching at ih ⊢
      simp only [List.zip_cons_cons, List.filter_cons, List.length_cons,
        List.range_succ_eq_map, List.get?_cons_zero, List.get?_cons_succ,
        List.filter_map, List.filterMap_map, Function.comp]
      by_cases hsg : s = g
      · simp [hsg, Function.comp_def, Nat.succ_eq_add_one, ih G h2]
      · simp [hsg, Function.comp_def, Nat.succ_eq_add_one, ih G h2]

theorem unmatched_snd_eq (S G : List α) (h : S.length = G.length) :
    (unmatchedPairs S G).map Prod.snd
      = (specNonMatching S G).filterMap fun i => G.get? i := by
  induction S generalizing G with
  | nil =>
    cases G with
    | nil => rfl
    | cons g G => simp at h
  | cons s S ih =>
    cases G with
    | nil => simp at h
    | cons g G =>
      have h2 : S.length = G.length := by simpa using h
      unfold unmatchedPairs specNonMatching at ih ⊢
      simp only [List.zip_cons_cons, List.filter_cons, List.length_cons,
        List.range_succ_eq_map, List.get?_cons_zero, List.get?_cons_succ,
        List.filter_map, List.filterMap_map, Function.comp]
      by_cases hsg : s = g
      · simp [hsg, Function.comp_def, Nat.succ_eq_add_one, ih G h2]
      · simp [hsg, Function.comp_def, Nat.succ_eq_add_one, ih G h2]

theorem black_add_unmatched (S G : List α) :
    score_black S G + (unmatchedPairs S G).length = (S.zip G).length := by
  unfold score_black unmatchedPairs
  exact (@List.length_eq_length_filter_add _ (S.zip G)
    fun p => decide (p.1 = p.2)).symm

theorem score_white_le_unmatched (S G : List α) :
    score_white S G ≤ (unmatchedPairs S G).length := by
  have hc := Multiset.card_le_card
    (Multiset.inter_le_left (secretCounter S G) (guessCounter S G))
  simpa [score_white, secretCounter, Multiset.coe_card] using hc

theorem score_bound (S G : List α) (h : S.length = G.length) :
    score_black S G + score_white S G ≤ S.length := by
  have h1 := score_white_le_unmatched S G
  have h2 := black_add_unmatched S G
  have h3 : (S.zip G).length = S.length := by
    simp [List.length_zip, h]
  omega

theorem score_black_self (S : List α) : score_black S S = S.length := by
  induction S with
  | nil => rfl
  | cons s S ih =>
    unfold score_black at ih ⊢
    simp [List.filter_cons, ih]

theorem unmatchedPairs_self (S : List α) : unmatchedPairs S S = [] := by
  induction S with
  | nil => rfl
  | cons s S ih =>
    unfold unmatchedPairs at ih ⊢
    simp [List.filter_cons, ih]

theorem score_white_self (S : List α) : score_white S S = 0 := by
  simp [score_white, secretCounter, guessCounter, unmatchedPairs_self]

/-- C1: for every secret `S` and guess `G` of equal length `n`,
`score_feedback(S, G)` returns `black` equal to the number of positions `i`
with `S[i] == G[i]`, `white` equal to the size of the multiset intersection
of the secret tokens and the guess tokens at the non-matching positions
(each counted up to the minimum of its occurrences on each side), and
`black + white ≤ n` always holds, with `black(S,S) = n` and
`white(S,S) = 0`. -/
theorem C1_score_feedback_spec (S G : List α) (h : S.length = G.length) :
    (score_feedback S G).black = specBlack S G ∧
    (score_feedback S G).white = specWhite S G ∧
    (score_feedback S G).black + (score_feedback S G).white ≤ S.length ∧
    (score_feedback S S).black = S.length ∧
    (score_feedback S S).white = 0 := by
  refine ⟨score_black_eq_spec S G h, ?_, score_bound S G h,
    score_black_self S, score_white_self S⟩
  show score_white S G = specWhite S G
  unfold score_white specWhite secretCounter guessCounter specSecretMS
    specGuessMS
  rw [unmatched_fst_eq S G h, unmatched_snd_eq S G h]

/-- Witness for C1 at the duplicate-color example of the spec,
`S = [R,R,G,B]`, `G = [G,B,R,R]`, encoded over `Nat`. -/
theorem C1_score_feedback_spec_witness :
    ([0, 0, 1, 2] : List Nat).length = ([1, 2, 0, 0] : List Nat).length ∧
    ((score_feedback ([0, 0, 1, 2] : List Nat) [1, 2, 0, 0]).black
        = specBlack [0, 0, 1, 2] [1, 2, 0, 0] ∧
      (score_feedback ([0, 0, 1, 2] : List Nat) [1, 2, 0, 0]).white
        = specWhite [0, 0, 1, 2] [1, 2, 0, 0] ∧
      (score_feedback ([0, 0, 1, 2] : List Nat) [1, 2, 0, 0]).black
          + (score_feedback ([0, 0, 1, 2] : List Nat) [1, 2, 0, 0]).white
        ≤ ([0, 0, 1, 2] : List Nat).length ∧
      (score_feedback ([0, 0, 1, 2] : List Nat) [0, 0, 1, 2]).black
        = ([0, 0, 1, 2] : List Nat).length ∧
      (score_feedback ([0, 0, 1, 2] : List Nat) [0, 0, 1, 2]).white = 0) :=
  ⟨rfl, C1_score_feedback_spec [0, 0, 1, 2] [1, 2, 0, 0] rfl⟩

/-! ### Validator -/

/-- C9: `validate_code` is valid iff the guess has the configured length and
every token is in the configured color set, with reason "wrong length" when
the length differs, "invalid color symbol" when the length matches but some
token is outside the color set, and "valid code" otherwise. -/
theorem C9_validate_code_spec (code : List α) (n : Nat) (colors : List α) :
    ((validate_code code n colors).1 = true ↔
      code.length = n ∧ ∀ c ∈ code, c ∈ colors) ∧
    (code.length ≠ n → (validate_code code n colors).2 = "wrong length") ∧
    (code.length = n → (∃ c ∈ code, c ∉ colors) →
      (validate_code code n colors).2 = "invalid color symbol") ∧
    (code.length = n → (∀ c ∈ code, c ∈ colors) →
      (validate_code code n colors).2 = "valid code") := by
  by_cases hlen : code.length = n
  · by_cases hbad : ∃ c ∈ code, c ∉ colors
    · have hany : (code.any fun c => !decide (c ∈ colors)) = true := by
        simpa [List.any_eq_true] using hbad
      have hval : validate_code code n colors
          = (false, "invalid color symbol") := by
        unfold validate_code
        rw [if_neg (by simp [hlen]), if_pos hany]
      obtain ⟨c, hc, hnc⟩ := hbad
      refine ⟨?_, fun hne => absurd hlen hne, fun _ _ => by rw [hval],
        fun _ hall => absurd (hall c hc) hnc⟩
      rw [hval]
      constructor
      · intro hf
        exact absurd hf (by decide)
      · rintro ⟨-, hall⟩
        exact absurd (hall c hc) hnc
    · have hall : ∀ c ∈ code, c ∈ colors := by
        intro c hc
        by_contra hnc
        exact hbad ⟨c, hc, hnc⟩
      have hany : (code.any fun c => !decide (c ∈ colors)) = false := by
        rw [Bool.eq_false_iff]
        intro hco
        obtain ⟨c, hc, hnc⟩ : ∃ c ∈ code, c ∉ colors := by
          simpa [List.any_eq_true] using hco
        exact hnc (hall c hc)
      have hval : validate_code code n colors = (true, "valid code") := by
        unfold validate_code
        rw [if_neg (by simp [hlen]), if_neg (by simp [hany])]
      refine ⟨?_, fun hne => absurd hlen hne, fun _ hb => absurd hb hbad,
        fun _ _ => by rw [hval]⟩
      rw [hval]
      exact ⟨fun _ => ⟨hlen, hall⟩, fun _ => rfl⟩
  · have hval : validate_code code n colors = (false, "wrong length") := by
      unfold validate_code
      rw [if_pos hlen]
    refine ⟨?_, fun _ => by rw [hval], fun he => absurd he hlen,
      fun he _ => absurd he hlen⟩
    rw [hval]
    constructor
    · intro hf
      exact absurd hf (by decide)
    · rintro ⟨he, -⟩
      exact absurd he hlen

/-- Witness for C9: a valid guess, a wrong-length guess and a bad-color
guess over the colors of `mastermind.py`. -/
theorem C9_validate_code_spec_witness :
    ((validate_code ["R", "G"] 2 ["R", "G", "U"]).1 = true ↔
      (["R", "G"] : List String).length = 2 ∧
        ∀ c ∈ (["R", "G"] : List String), c ∈ (["R", "G", "U"] : List String)) ∧
    ((["R", "G"] : List String).length ≠ 2 →
      (validate_code ["R", "G"] 2 ["R", "G", "U"]).2 = "wrong length") ∧
    ((["R", "G"] : List String).length = 2 →
      (∃ c ∈ (["R", "G"] : List String), c ∉ (["R", "G", "U"] : List String)) →
      (validate_code ["R", "G"] 2 ["R", "G", "U"]).2 = "invalid color symbol") ∧
    ((["R", "G"] : List String).length = 2 →
      (∀ c ∈ (["R", "G"] : List String), c ∈ (["R", "G", "U"] : List String)) →
      (validate_code ["R", "G"] 2 ["R", "G", "U"]).2 = "valid code") :=
  C9_validate_code_spec ["R", "G"] 2 ["R", "G", "U"]

/-! ### Settings dictionary frame -/

theorem Dict.get?_set_ne (d : Dict) (k q : String) (v : PyVal) (hne : q ≠ k) :
    (d.set k v).get? q = d.get? q := by
  have hkq : ¬(k = q) := fun h => hne h.symm
  induction d with
  | nil => simp [Dict.set, Dict.get?, hkq]
  | cons p rest ih =>
    obtain ⟨k0, v0⟩ := p
    by_cases h0 : k0 = k
    · subst h0
      simp [Dict.set, Dict.get?, hkq]
    · by_cases hq : k0 = q
      · simp [Dict.set, Dict.get?, h0, hq, hne]
      · simp [Dict.set, Dict.get?, h0, hq, ih]

theorem runGameLoop_settings_fixed (d : Dict) (s : SettingsV) (module : String)
    (secret : List String) (start : StartOut) (bot : BotBehavior) :
    (runGameLoop d s module secret start bot).2 = d := by
  cases start with
  | ready =>
    cases hinfo : bot.info with
    | ok bi => simp [runGameLoop, hinfo]
    | error e => simp [runGameLoop, hinfo]
    | timeout => simp [runGameLoop, hinfo]
  | timeout => simp [runGameLoop]
  | error e => simp [runGameLoop]

/-- C4: the engine never mutates the caller's settings record beyond the
absent-seed default: after `Game.__init__` every key other than `game_seed`
is bound as the caller left it, a supplied `game_seed` leaves the record
untouched, an absent one only appends the default seed, and
`run_game_loop` leaves the record exactly as it was. -/
theorem C4_settings_unchanged (d d2 : Dict) (hok : Game.init d = .ok d2) :
    (∀ k, k ≠ GAME_SEED → d2.get? k = d.get? k) ∧
    (d.contains GAME_SEED = true → d2 = d) ∧
    (d.contains GAME_SEED = false →
      d2 = d.set GAME_SEED (PyVal.int DEFAULT_SEED)) ∧
    (∀ s module secret start bot,
      (runGameLoop d2 s module secret start bot).2 = d2) := by
  unfold Game.init at hok
  by_cases h1 : d.contains CODE_COLORS = false
  · simp [h1] at hok
  · by_cases h2 : d.contains CODE_LENGTH = false
    · simp [h1, h2] at hok
    · by_cases h3 : d.contains MAX_TURNS = false
      · simp [h1, h2, h3] at hok
      · by_cases h4 : d.contains GAME_SEED = false
        · simp [h1, h2, h3, h4] at hok
          subst hok
          refine ⟨fun k hk => Dict.get?_set_ne d GAME_SEED k _ hk,
            fun hcon => ?_, fun _ => rfl,
            fun s module secret start bot =>
              runGameLoop_settings_fixed _ s module secret start bot⟩
          rw [hcon] at h4
          exact Bool.noConfusion h4
        · simp [h1, h2, h3, h4] at hok
          subst hok
          exact ⟨fun k hk => rfl, fun _ => rfl,
            fun hcon => absurd hcon h4,
            fun s module secret start bot =>
              runGameLoop_settings_fixed _ s module secret start bot⟩

/-- Witness for C4: settings without a seed; `Game.__init__` appends the
default seed and every other key reads back unchanged. -/
theorem C4_settings_unchanged_witness :
    Dict.get?
        [(CODE_COLORS, PyVal.strList ["R", "G"]), (CODE_LENGTH, PyVal.int 4),
         (MAX_TURNS, PyVal.int 10), (GAME_SEED, PyVal.int 104)] CODE_LENGTH
      = Dict.get?
        [(CODE_COLORS, PyVal.strList ["R", "G"]), (CODE_LENGTH, PyVal.int 4),
         (MAX_TURNS, PyVal.int 10)] CODE_LENGTH :=
  (C4_settings_unchanged
    [(CODE_COLORS, PyVal.strList ["R", "G"]), (CODE_LENGTH, PyVal.int 4),
     (MAX_TURNS, PyVal.int 10)]
    [(CODE_COLORS, PyVal.strList ["R", "G"]), (CODE_LENGTH, PyVal.int 4),
     (MAX_TURNS, PyVal.int 10), (GAME_SEED, PyVal.int 104)]
    rfl).1 CODE_LENGTH (by decide)


/-! ### Game loop -/

/-- C2 (code bug): a startup fault from `BotProcess.start` — a start
timeout or a worker-reported startup error — is not caught anywhere in
`run_game_loop` (its `try` block has only a `finally`), so the exception
escapes to the caller instead of becoming a loss result with
`turns_used = -1`.  Evaluated at a concrete configuration for both kinds
of startup fault. -/
theorem C2_startup_fault_escapes :
    (runGameLoop [] ⟨["R", "G"], 2, 3⟩ "badbot" ["R", "R"]
        (.error "Import failed")
        ⟨.timeout, fun _ => .timeout, fun _ => .timeout⟩).1
      = .raisedError "Bot badbot failed to start: Import failed" ∧
    (runGameLoop [] ⟨["R", "G"], 2, 3⟩ "badbot" ["R", "R"] .timeout
        ⟨.timeout, fun _ => .timeout, fun _ => .timeout⟩).1
      = .raisedTimeout "Bot badbot failed to start in time" :=
  ⟨rfl, rfl⟩

/-- C3 (code bug): an invalid guess does terminate the loop with loss,
reason "invalid code" and `turns_used` = the current turn, and no further
call reaches the agent (here every response after the first guess would be
a fault, yet none is consulted); but the source builds this result without
passing `bot_info`, so the result carries the `{unknown, unknown}` default
even though the agent already reported `{Randy, Prof}` before play
began. -/
theorem C3_invalid_code_default_botinfo :
    (runGameLoop [] ⟨["R", "G", "U", "Y"], 4, 10⟩ "randy" ["R", "G", "U", "Y"]
        .ready
        ⟨.ok ⟨"Randy", "Prof"⟩,
         fun t => if t = 1 then .ok ["R"] else .timeout,
         fun _ => .timeout⟩).1
      = .ret
          { turns := 1, result := "loss", reason := "invalid code",
            secret := ["R", "G", "U", "Y"], history := [],
            botinfo := { name := "unknown", author := "unknown" } } :=
  rfl

/-- C7: on every turn with a valid winning guess, the feedback record is
delivered through `receive_feedback` before the win check: a fault in that
call yields loss at the current turn, and only after a successful delivery
does `black == code_length` terminate the loop with win, reason
"guessed code", `turns_used` = the current turn. -/
theorem C7_feedback_before_win_check (s : SettingsV) (secret : List String)
    (bot : BotBehavior) (bot_info : BotInfo)
    (history : List (Feedback String)) (turn r : Nat) (g : List String)
    (hg : bot.guess turn = .ok g)
    (hv : (validate_code g s.code_length s.code_colors).1 = true)
    (hwin : (score_feedback secret g).black = s.code_length) :
    (∀ e, bot.feedback turn = .error e →
      playTurns s secret bot bot_info history turn (r + 1)
        = make_result secret (history ++ [score_feedback secret g])
            (Int.ofNat turn) "loss" ("exception: " ++ e) bot_info) ∧
    (bot.feedback turn = .timeout →
      playTurns s secret bot bot_info history turn (r + 1)
        = make_result secret (history ++ [score_feedback secret g])
            (Int.ofNat turn) "loss" "timeout" bot_info) ∧
    (bot.feedback turn = .ok () →
      playTurns s secret bot bot_info history turn (r + 1)
        = make_result secret (history ++ [score_feedback secret g])
            (Int.ofNat turn) "win" "guessed code" bot_info) := by
  have hv2 : ¬((validate_code g s.code_length s.code_colors).1 = false) := by
    simp [hv]
  refine ⟨fun e he => ?_, fun ht => ?_, fun hk => ?_⟩
  · unfold playTurns
    rw [hg]
    simp [hv, he]
  · unfold playTurns
    rw [hg]
    simp [hv, ht]
  · unfold playTurns
    rw [hg]
    simp [hv, hk, hwin]

/-- Witness for C7: a winning guess whose feedback delivery succeeds,
ending the match as a win on turn 1. -/
theorem C7_feedback_before_win_check_witness :
    playTurns ⟨["R"], 1, 1⟩ ["R"]
        ⟨.ok ⟨"a", "b"⟩, fun _ => .ok ["R"], fun _ => .ok ()⟩
        ⟨"a", "b"⟩ [] 1 1
      = make_result ["R"] [score_feedback ["R"] ["R"]] (Int.ofNat 1)
          "win" "guessed code" ⟨"a", "b"⟩ :=
  (C7_feedback_before_win_check ⟨["R"], 1, 1⟩ ["R"]
    ⟨.ok ⟨"a", "b"⟩, fun _ => .ok ["R"], fun _ => .ok ()⟩
    ⟨"a", "b"⟩ [] 1 0 ["R"] rfl (by decide) rfl).2.2 rfl

/-- Exhausting the remaining iterations with valid non-winning guesses and
successful feedback deliveries ends in the "exhausted turns" loss result. -/
theorem playTurns_exhaust (s : SettingsV) (secret : List String)
    (bot : BotBehavior) (bot_info : BotInfo) :
    ∀ (r turn : Nat) (history : List (Feedback String)),
    (∀ t, turn ≤ t → t < turn + r →
      ∃ g, bot.guess t = .ok g ∧
        (validate_code g s.code_length s.code_colors).1 = true ∧
        (score_feedback secret g).black ≠ s.code_length ∧
        bot.feedback t = .ok ()) →
    ∃ h2, playTurns s secret bot bot_info history turn r
      = make_result secret h2 (Int.ofNat s.max_turns)
          "loss" "exhausted turns" bot_info := by
  intro r
  induction r with
  | zero =>
    intro turn history _
    exact ⟨history, rfl⟩
  | succ r ih =>
    intro turn history hall
    obtain ⟨g, hg, hv, hnw, hf⟩ := hall turn (le_refl _) (by omega)
    obtain ⟨h2, hrec⟩ := ih (turn + 1) (history ++ [score_feedback secret g])
      (fun t ht1 ht2 => hall t (by omega) (by omega))
    refine ⟨h2, ?_⟩
    have hv2 : ¬((validate_code g s.code_length s.code_colors).1 = false) := by
      simp [hv]
    unfold playTurns
    rw [hg]
    simp [hv, hf, hnw]
    exact hrec

/-- C8: if the agent completes all `max_turns` turns without any guess
scoring `black == code_length` and without any fault, `run_game_loop`
returns loss with reason "exhausted turns" and
`turns_used == max_turns`. -/
theorem C8_exhausted_turns (d : Dict) (s : SettingsV) (module : String)
    (secret : List String) (bot : BotBehavior) (binfo : BotInfo)
    (hinfo : bot.info = .ok binfo)
    (hall : ∀ t, 1 ≤ t → t ≤ s.max_turns →
      ∃ g, bot.guess t = .ok g ∧
        (validate_code g s.code_length s.code_colors).1 = true ∧
        (score_feedback secret g).black ≠ s.code_length ∧
        bot.feedback t = .ok ()) :
    ∃ res, (runGameLoop d s module secret .ready bot).1 = .ret res ∧
      res.turns = Int.ofNat s.max_turns ∧ res.result = "loss" ∧
      res.reason = "exhausted turns" := by
  obtain ⟨h2, heq⟩ := playTurns_exhaust s secret bot binfo s.max_turns 1 []
    (fun t ht1 ht2 => hall t ht1 (by omega))
  have hrun : (runGameLoop d s module secret .ready bot).1
      = .ret (playTurns s secret bot binfo [] 1 s.max_turns) := by
    simp [runGameLoop, hinfo]
  rw [hrun, heq]
  exact ⟨_, rfl, rfl, rfl, rfl⟩

/-- Witness for C8: a one-turn game whose only guess is valid and wrong,
ending as an "exhausted turns" loss. -/
theorem C8_exhausted_turns_witness :
    ∃ res,
      (runGameLoop [] ⟨["R", "G"], 1, 1⟩ "randy" ["R"] .ready
          ⟨.ok ⟨"a", "b"⟩, fun _ => .ok ["G"], fun _ => .ok ()⟩).1
        = .ret res ∧
      res.turns = Int.ofNat 1 ∧ res.result = "loss" ∧
      res.reason = "exhausted turns" :=
  C8_exhausted_turns [] ⟨["R", "G"], 1, 1⟩ "randy" ["R"]
    ⟨.ok ⟨"a", "b"⟩, fun _ => .ok ["G"], fun _ => .ok ()⟩ ⟨"a", "b"⟩ rfl
    (fun t ht1 ht2 => by
      have ht : t = 1 := le_antisymm ht2 ht1
      subst ht
      exact ⟨["G"], rfl, by decide, by decide, rfl⟩)

/-! ### Supervisor handle -/

theorem stop_dead (st : BPState) :
    (BotProcess.stop st).alive = false ∨ (BotProcess.stop st).pipe = false := by
  unfold BotProcess.stop
  by_cases h : st.alive = false ∨ st.pipe = false
  · rw [if_pos h]
    exact h
  · rw [if_neg h]
    exact Or.inl rfl

/-- C5: `call` on a handle that is not alive — fresh from `__init__` or
after `stop()` — raises the not-started `BotError` without sending
anything to the worker and without touching the state; and on a poll
timeout the worker process is forcibly terminated (`_kill`: process gone,
handle no longer alive) before `BotTimeout` is raised. -/
theorem C5_call_guard_and_timeout_kill (module method : String) :
    (∀ env, BotProcess.call module method BotProcess.initState env
      = (.raiseError "Bot process not started", BotProcess.initState, false)) ∧
    (∀ st env, BotProcess.call module method (BotProcess.stop st) env
      = (.raiseError "Bot process not started", BotProcess.stop st, false)) ∧
    (∀ st, st.alive = true → st.pipe = true →
      BotProcess.call module method st .timeout
        = (.raiseTimeout
            ("Bot " ++ module ++ " timed out calling " ++ method ++ "()"),
           { alive := false, pipe := false, procAlive := false }, true)) := by
  refine ⟨fun env => rfl, fun st env => ?_, fun st ha hp => ?_⟩
  · unfold BotProcess.call
    rw [if_pos (stop_dead st)]
  · have hcond : ¬(st.alive = false ∨ st.pipe = false) := by
      simp [ha, hp]
    unfold BotProcess.call
    rw [if_neg hcond]
    rfl

/-- Witness for C5: a live handle whose call times out is killed. -/
theorem C5_call_guard_and_timeout_kill_witness :
    BotProcess.call "m" "f"
        { alive := true, pipe := true, procAlive := true } .timeout
      = (.raiseTimeout "Bot m timed out calling f()",
         { alive := false, pipe := false, procAlive := false }, true) :=
  (C5_call_guard_and_timeout_kill "m" "f").2.2
    { alive := true, pipe := true, procAlive := true } rfl rfl

/-- C10: a paired ok:false response makes `call` raise `BotError` without
killing the worker: the handle state is unchanged (still alive, process
still running), and a subsequent call on the same handle still proceeds to
send its request. -/
theorem C10_call_error_keeps_alive (module method e : String) (st : BPState)
    (ha : st.alive = true) (hp : st.pipe = true) :
    BotProcess.call module method st (.msg (.err e))
      = (.raiseError
          ("Bot " ++ module ++ " error in " ++ method ++ "(): " ++ e),
         st, true) ∧
    (BotProcess.call module method st (.msg (.err e))).2.1.alive = true ∧
    (BotProcess.call module method st (.msg (.err e))).2.1.procAlive
      = st.procAlive ∧
    (∀ env, (BotProcess.call module method
        (BotProcess.call module method st (.msg (.err e))).2.1 env).2.2
      = true) := by
  have hcond : ¬(st.alive = false ∨ st.pipe = false) := by
    simp [ha, hp]
  have hmain : BotProcess.call module method st (.msg (.err e))
      = (.raiseError
          ("Bot " ++ module ++ " error in " ++ method ++ "(): " ++ e),
         st, true) := by
    unfold BotProcess.call
    rw [if_neg hcond]
  refine ⟨hmain, ?_, ?_, fun env => ?_⟩
  · rw [hmain]
    exact ha
  · rw [hmain]
  · rw [hmain]
    show (BotProcess.call module method st env).2.2 = true
    unfold BotProcess.call
    rw [if_neg hcond]
    cases env with
    | timeout => rfl
    | msg m => cases m <;> rfl

/-- Witness for C10: a live handle surviving an ok:false response. -/
theorem C10_call_error_keeps_alive_witness :
    BotProcess.call "m" "f"
        { alive := true, pipe := true, procAlive := true } (.msg (.err "boom"))
      = (.raiseError "Bot m error in f(): boom",
         { alive := true, pipe := true, procAlive := true }, true) :=
  (C10_call_error_keeps_alive "m" "f" "boom"
    { alive := true, pipe := true, procAlive := true } rfl rfl).1

/-! ### Worker loop -/

/-- C6: a `call` request whose resolved agent method raises is answered
with an ok:false response carrying the diagnostic text, and the worker
keeps serving the remaining requests — the fault never escapes the
loop. -/
theorem C6_worker_call_fault_contained (m tb : String) (rest : List WEvent) :
    workerLoop (.callMsg m (some (.error tb)) :: rest)
      = .err tb :: workerLoop rest :=
  rfl


end Mastermind
